import Mathlib

/-!
# Assist Link — conversation orchestration and escalation engine

Verification development for the Assist Link support-agent repository.
The repository ships a React Native frontend, an Express proxy layer and a
FastAPI backend.  The backend source (conversation manager, intent and
sentiment classifiers, escalation policy, ticket issuer) is not part of the
checked-in sources here, so those components are modelled from the design
document; the proxy routing and the frontend colour logic are embedded
directly from the TypeScript sources.
-/

namespace Assist

/-! ## Basic enumerations of the data model -/

/-- Sentiment labels produced by the sentiment classifiers. -/
inductive Sentiment
  | positive
  | neutral
  | negative
  | mixed
deriving DecidableEq

/-- Credit-card query intents recognised by the intent classifier. -/
inductive Intent
  | bill_generation
  | payment_deduction
  | balance_inquiry
  | due_date_inquiry
  | complaint
  | unknown
deriving DecidableEq

/-- Lifecycle status of a conversation. -/
inductive Status
  | active
  | escalated
  | closed
deriving DecidableEq

/-- Outcome classification of a conversation. -/
inductive ResolutionStatus
  | in_progress
  | ai_resolved
  | human_followup_required
deriving DecidableEq

/-- Author of a message. -/
inductive Role
  | user
  | assistant
deriving DecidableEq

/-- A message in a conversation transcript. -/
structure Message where
  role : Role
  content : String
  timestamp : Nat
deriving DecidableEq

/-- A sentiment reading attached to one turn. -/
structure SentimentReading where
  label : Sentiment
  confidence : ℚ
deriving DecidableEq

/-- A support ticket issued on escalation. -/
structure Ticket where
  id : String
  locally_issued : Bool
deriving DecidableEq

/-- A conversation record as kept by the conversation manager. -/
structure Conversation where
  id : String
  messages : List Message
  sentiment : Sentiment
  status : Status
  resolution_status : ResolutionStatus
  escalated : Bool
  ticket_id : Option String
  sentimentHistory : List SentimentReading
  created_at : Nat
deriving DecidableEq

/-! ## Text utilities

Case-insensitive keyword matching, spelled out over character lists so that
everything is executable and provable by structural induction. -/

/-- ASCII lower-casing of a single character. -/
def lowChar (c : Char) : Char :=
  if 65 ≤ c.toNat ∧ c.toNat ≤ 90 then Char.ofNat (c.toNat + 32) else c

/-- ASCII lower-casing of a character list. -/
def lowerL (l : List Char) : List Char := l.map lowChar

/-- Boolean list-prefix test. -/
def isPrefixL : List Char → List Char → Bool
  | [], _ => true
  | _ :: _, [] => false
  | p :: ps, c :: cs => p = c && isPrefixL ps cs

/-- Boolean substring test: does `pat` occur contiguously inside `hay`? -/
def containsSub : List Char → List Char → Bool
  | [], pat => pat.isEmpty
  | c :: rest, pat => isPrefixL pat (c :: rest) || containsSub rest pat

/-! ## Intent classifier

Modelled from the spec: the FastAPI service `backend/services/conversation.py`
is not among the checked-in sources.  The spec describes a fixed ordered rule
list (complaint detection evaluated before topical detection), first-match-wins
with case-insensitive keyword matching, and a fallback intent. -/

/-- Modelled from the spec: the ordered intent rule table of the missing
`backend/services/conversation.py` — complaint keywords first, then the
topical credit-card rules, evaluated first-match-wins. -/
def intentRules : List (List String × Intent) :=
  [ (["ridiculous", "overcharg", "complaint", "terrible", "frustrat", "unacceptable"],
      Intent.complaint),
    (["bill"], Intent.bill_generation),
    (["payment", "deduct"], Intent.payment_deduction),
    (["balance"], Intent.balance_inquiry),
    (["due date", "due"], Intent.due_date_inquiry) ]

/-- Does a rule's keyword set match the (already lower-cased) text? -/
def ruleMatches (tl : List Char) (kws : List String) : Bool :=
  kws.any fun k => containsSub tl (lowerL k.toList)

/-- First-match-wins evaluation of an ordered rule list. -/
def firstMatch (tl : List Char) : List (List String × Intent) → Intent
  | [] => Intent.unknown
  | r :: rest => if ruleMatches tl r.1 then r.2 else firstMatch tl rest

/-- Modelled from the spec: the intent classifier of the missing backend —
lower-case the input and evaluate the ordered rule list first-match-wins,
falling back to `unknown`. -/
def classify_intent (text : String) : Intent :=
  firstMatch (lowerL text.toList) intentRules

/-! ## Sentiment classifier (text path)

Modelled from the spec: local keyword/heuristic scoring, never fails, neutral
with low confidence on empty or unrecognized input. -/

/-- Modelled from the spec: negative keyword list of the missing local text
sentiment scorer. -/
def negativeKeywords : List String :=
  ["ridiculous", "overcharg", "angry", "terrible", "worst", "frustrat",
   "not working", "unacceptable", "bad"]

/-- Modelled from the spec: positive keyword list of the missing local text
sentiment scorer. -/
def positiveKeywords : List String :=
  ["thank", "great", "good", "perfect", "awesome", "helpful"]

/-- Modelled from the spec: the local text-path sentiment classifier of the
missing backend — keyword scoring, `mixed` when both polarities match,
`neutral` with low confidence when nothing matches. -/
def analyze_text_sentiment (text : String) : SentimentReading :=
  let tl := lowerL text.toList
  let negHit := negativeKeywords.any fun k => containsSub tl (lowerL k.toList)
  let posHit := positiveKeywords.any fun k => containsSub tl (lowerL k.toList)
  if negHit && posHit then ⟨Sentiment.mixed, 6/10⟩
  else if negHit then ⟨Sentiment.negative, 8/10⟩
  else if posHit then ⟨Sentiment.positive, 8/10⟩
  else ⟨Sentiment.neutral, 3/10⟩

/-! ## Response generator

Modelled from the spec: canned replies per intent. -/

/-- Modelled from the spec: the canned response table of the missing backend
response generator. -/
def generate_response : Intent → String
  | Intent.bill_generation =>
      "Your latest bill has been generated and sent to your registered email."
  | Intent.payment_deduction =>
      "Your payment was received; it can take up to 24 hours to reflect."
  | Intent.balance_inquiry =>
      "Your current outstanding balance is available in the app dashboard."
  | Intent.due_date_inquiry =>
      "Your payment due date is the 15th of every month."
  | Intent.complaint =>
      "I am sorry for the trouble. Let me flag this for our support team."
  | Intent.unknown =>
      "I did not quite catch that. Could you rephrase your question?"

/-! ## Escalation policy

Modelled from the spec: escalate when the consecutive negative/mixed count
reaches the threshold, or the current intent is a complaint with negative
sentiment, or the turn count exceeds the maximum without `ai_resolved`;
escalation takes precedence over resolution. -/

/-- Tunable policy thresholds; the spec gives 2 consecutive readings and a
maximum turn count as defaults. -/
structure PolicyConfig where
  threshold : Nat := 2
  maxTurns : Nat := 10
deriving DecidableEq

/-- Is a sentiment reading negative or mixed? -/
def isNegOrMixed : Sentiment → Bool
  | Sentiment.negative => true
  | Sentiment.mixed => true
  | _ => false

/-- Length of the leading run of negative/mixed readings. -/
def consecLead : List SentimentReading → Nat
  | [] => 0
  | r :: rest => if isNegOrMixed r.label then consecLead rest + 1 else 0

/-- Running count of consecutive negative/mixed readings at the end of the
history (histories are kept in append order). -/
def consecTrailing (hist : List SentimentReading) : Nat :=
  consecLead hist.reverse

/-- Modelled from the spec: the escalation condition of the missing
escalation policy — threshold of consecutive negative/mixed readings,
explicit complaint with negative sentiment, or too many turns without
`ai_resolved`. -/
def escalation_condition (cfg : PolicyConfig) (hist : List SentimentReading)
    (intent : Intent) (cur : Sentiment) (turnCount : Nat)
    (res : ResolutionStatus) : Prop :=
  cfg.threshold ≤ consecTrailing hist ∨
    (intent = Intent.complaint ∧ cur = Sentiment.negative) ∨
    (cfg.maxTurns < turnCount ∧ res ≠ ResolutionStatus.ai_resolved)

instance (cfg : PolicyConfig) (hist : List SentimentReading) (intent : Intent)
    (cur : Sentiment) (turnCount : Nat) (res : ResolutionStatus) :
    Decidable (escalation_condition cfg hist intent cur turnCount res) := by
  unfold escalation_condition
  infer_instance

/-- Intents that carry a direct informational answer. -/
def intentHasDirectAnswer : Intent → Bool
  | Intent.bill_generation => true
  | Intent.payment_deduction => true
  | Intent.balance_inquiry => true
  | Intent.due_date_inquiry => true
  | _ => false

/-- Modelled from the spec: the resolution condition of the missing
escalation policy — positive or neutral sentiment together with an intent
that has a direct informational answer. -/
def resolve_condition (intent : Intent) (cur : Sentiment) : Prop :=
  (cur = Sentiment.positive ∨ cur = Sentiment.neutral) ∧
    intentHasDirectAnswer intent = true

instance (intent : Intent) (cur : Sentiment) :
    Decidable (resolve_condition intent cur) := by
  unfold resolve_condition
  infer_instance

/-- Decision taken by the escalation policy after a turn. -/
inductive Decision
  | escalate
  | resolve
  | continueAuto
deriving DecidableEq

/-- Modelled from the spec: the decision procedure of the missing escalation
policy — escalation is tested first, so it takes precedence over
resolution. -/
def decide_policy (cfg : PolicyConfig) (hist : List SentimentReading)
    (intent : Intent) (cur : Sentiment) (turnCount : Nat)
    (res : ResolutionStatus) : Decision :=
  if escalation_condition cfg hist intent cur turnCount res then Decision.escalate
  else if resolve_condition intent cur then Decision.resolve
  else Decision.continueAuto

/-! ## Ticket issuer adapter

Modelled from the spec: the external create-card call may fail; on failure a
local ticket ID of the form `LOCAL-{unix_timestamp}` is generated instead. -/

/-- Modelled from the spec: the ticket issuer adapter of the missing backend.
The outcome of the external create-card call is modelled as an
`Option String` (`none` covers network error, non-2xx response and missing
configuration alike); on failure the adapter falls back to a locally
generated ID rather than propagating the failure. -/
def issue (ext : Option String) (timestamp : Nat) : Ticket :=
  match ext with
  | some eid => ⟨eid, false⟩
  | none => ⟨"LOCAL-" ++ toString timestamp, true⟩

/-! ## Conversation manager

Modelled from the spec: the conversation store is a key-addressable map from
conversation IDs to records; `handle_turn` appends the user and assistant
messages, runs the classifiers and the policy, applies the state transition
and persists the record. -/

/-- The key-addressable conversation store. -/
abbrev Store := List (String × Conversation)

/-- Look up a conversation by ID (first match). -/
def getConv : Store → String → Option Conversation
  | [], _ => none
  | (k, v) :: rest, cid => if k = cid then some v else getConv rest cid

/-- Store a conversation under an ID, replacing the first existing entry. -/
def putConv : Store → String → Conversation → Store
  | [], cid, c => [(cid, c)]
  | (k, v) :: rest, cid, c =>
      if k = cid then (cid, c) :: rest else (k, v) :: putConv rest cid c

/-- Errors signalled by the conversation manager. -/
inductive TurnError
  | NotFoundError
  | ClosedConversationError
  | EscalatedConversationError
deriving DecidableEq

/-- A freshly started conversation record. -/
def freshConv (cid : String) (now : Nat) : Conversation :=
  { id := cid
    messages := []
    sentiment := Sentiment.neutral
    status := Status.active
    resolution_status := ResolutionStatus.in_progress
    escalated := false
    ticket_id := none
    sentimentHistory := []
    created_at := now }

/-- Ticket slot of a conversation after an escalation step: keep the
existing ticket when one was already issued (at most one issuance per
conversation), otherwise invoke the ticket issuer adapter. -/
def nextTicket (c : Conversation) (ext : Option String) (now : Nat) :
    Option String :=
  match c.ticket_id with
  | some t => some t
  | none => some (issue ext now).id

/-- Modelled from the spec: the per-turn state update of the missing
conversation manager.  Appends the user and the assistant message, records
the sentiment reading, and applies the policy decision: on escalation it
sets `status`, `resolution_status`, `escalated` and issues a ticket (only
when none exists yet); on resolution it marks `ai_resolved`. -/
def turnUpdate (cfg : PolicyConfig) (c : Conversation) (text : String)
    (now : Nat) (ext : Option String) : Conversation :=
  let reading := analyze_text_sentiment text
  let intent := classify_intent text
  let msgs := c.messages ++
    [⟨Role.user, text, now⟩, ⟨Role.assistant, generate_response intent, now⟩]
  let hist := c.sentimentHistory ++ [reading]
  let base := { c with
    messages := msgs
    sentiment := reading.label
    sentimentHistory := hist }
  match decide_policy cfg hist intent reading.label hist.length
      c.resolution_status with
  | Decision.escalate =>
      { base with
        status := Status.escalated
        resolution_status := ResolutionStatus.human_followup_required
        escalated := true
        ticket_id := nextTicket c ext now }
  | Decision.resolve =>
      { base with resolution_status := ResolutionStatus.ai_resolved }
  | Decision.continueAuto => base

/-- Modelled from the spec: `handle_turn` of the missing conversation
manager.  Fails with `NotFoundError` on an unknown ID, with
`ClosedConversationError` on a closed conversation and with
`EscalatedConversationError` on an escalated one; otherwise it applies
`turnUpdate`, persists and returns the updated record with the latest
sentiment reading. -/
def handle_turn (cfg : PolicyConfig) (s : Store) (cid : String) (text : String)
    (now : Nat) (ext : Option String) :
    Except TurnError (Store × Conversation × SentimentReading) :=
  match getConv s cid with
  | none => Except.error TurnError.NotFoundError
  | some c =>
      if c.status = Status.closed then
        Except.error TurnError.ClosedConversationError
      else if c.escalated then
        Except.error TurnError.EscalatedConversationError
      else
        let c' := turnUpdate cfg c text now ext
        Except.ok (putConv s cid c', c', analyze_text_sentiment text)

/-- Modelled from the spec: `close` of the missing conversation manager.
Fails with `NotFoundError` on an unknown ID, otherwise sets
`status := closed` (idempotent on an already-closed conversation). -/
def close (s : Store) (cid : String) : Except TurnError Store :=
  match getConv s cid with
  | none => Except.error TurnError.NotFoundError
  | some c => Except.ok (putConv s cid { c with status := Status.closed })

/-- The mutating operations of the conversation manager. -/
inductive Op
  | start (cid : String) (now : Nat)
  | turn (cid : String) (text : String) (now : Nat) (ext : Option String)
  | close (cid : String)

/-- Apply one operation to the store; failed operations leave the store
unchanged.  `start` only creates the conversation when the ID is fresh
(IDs are generated unique at creation). -/
def applyOp (cfg : PolicyConfig) (s : Store) : Op → Store
  | Op.start cid now =>
      match getConv s cid with
      | some _ => s
      | none => (cid, freshConv cid now) :: s
  | Op.turn cid text now ext =>
      match handle_turn cfg s cid text now ext with
      | Except.ok (s', _, _) => s'
      | Except.error _ => s
  | Op.close cid =>
      match close s cid with
      | Except.ok s' => s'
      | Except.error _ => s

/-- Status of a stored conversation, if present. -/
def statusOf (s : Store) (cid : String) : Option Status :=
  (getConv s cid).map Conversation.status

/-- Resolution status of a stored conversation, if present. -/
def resolutionOf (s : Store) (cid : String) : Option ResolutionStatus :=
  (getConv s cid).map Conversation.resolution_status

/-- Has a ticket been issued for a stored conversation? -/
def ticketIssued (s : Store) (cid : String) : Bool :=
  match getConv s cid with
  | some c => c.ticket_id.isSome
  | none => false

/-! ## Frontend colour logic (embedded from `constants/colors.ts`,
`app/index.tsx` and `app/conversation/[id].tsx`) -/

/-- A colour theme, as in `constants/colors.ts`. -/
structure ThemeColors where
  text : String
  textSecondary : String
  background : String
  card : String
  tint : String
  accent : String
  warning : String
  tabIconDefault : String
  tabIconSelected : String
  border : String
  sentimentPositive : String
  sentimentNeutral : String
  sentimentNegative : String
  sentimentMixed : String
  statusActive : String
  statusEscalated : String
  statusClosed : String
deriving DecidableEq

/-- The light theme from `constants/colors.ts`. -/
def lightColors : ThemeColors :=
  { text := "#1C1C1E"
    textSecondary := "#8E8E93"
    background := "#F2F2F7"
    card := "#FFFFFF"
    tint := "#0A84FF"
    accent := "#30D5C8"
    warning := "#FF6B35"
    tabIconDefault := "#8E8E93"
    tabIconSelected := "#0A84FF"
    border := "#E5E5EA"
    sentimentPositive := "#34C759"
    sentimentNeutral := "#FFD60A"
    sentimentNegative := "#FF3B30"
    sentimentMixed := "#FF9500"
    statusActive := "#34C759"
    statusEscalated := "#FF3B30"
    statusClosed := "#8E8E93" }

/-- The dark theme from `constants/colors.ts`. -/
def darkColors : ThemeColors :=
  { text := "#FFFFFF"
    textSecondary := "#98989D"
    background := "#000000"
    card := "#1C1C1E"
    tint := "#0A84FF"
    accent := "#30D5C8"
    warning := "#FF6B35"
    tabIconDefault := "#636366"
    tabIconSelected := "#0A84FF"
    border := "#38383A"
    sentimentPositive := "#30D158"
    sentimentNeutral := "#FFD60A"
    sentimentNegative := "#FF453A"
    sentimentMixed := "#FF9F0A"
    statusActive := "#30D158"
    statusEscalated := "#FF453A"
    statusClosed := "#636366" }

/-- Sentiment dot colour of the home-screen `ConversationCard`
(`app/index.tsx`): negative and mixed get their own colours, everything else
falls through to the positive colour. -/
def conversationCardSentimentColor (theme : ThemeColors) (sentiment : String) :
    String :=
  if sentiment = "negative" then theme.sentimentNegative
  else if sentiment = "mixed" then theme.sentimentMixed
  else theme.sentimentPositive

/-- Badge colour of the conversation screen's `SentimentIndicator`
(`app/conversation/[id].tsx`): negative, mixed and positive get their own
colours, everything else gets the neutral colour. -/
def sentimentIndicatorColor (theme : ThemeColors) (sentiment : String) :
    String :=
  if sentiment = "negative" then theme.sentimentNegative
  else if sentiment = "mixed" then theme.sentimentMixed
  else if sentiment = "positive" then theme.sentimentPositive
  else theme.sentimentNeutral

/-- `isInputDisabled` from `app/conversation/[id].tsx`: the input area is
replaced by the closed/escalated banner when the conversation is closed or
escalated. -/
def isInputDisabled (conversationStatus : String) (isEscalated : Bool) : Bool :=
  conversationStatus = "closed" || isEscalated

/-! ## Express proxy routing (embedded from `server/routes.ts` and the
alternative middleware implementation) -/

/-- What the Express layer does with a request path. -/
inductive RouteAction
  | proxyTo (target : String)
  | nextHandler
deriving DecidableEq

/-- The FastAPI backend address both implementations proxy to. -/
def proxyTarget : String := "http://127.0.0.1:8001"

/-- The middleware implementation of `registerRoutes`: proxy exactly when
`req.path.startsWith("/api")`, otherwise call `next()`. -/
def registerRoutesMiddleware (path : String) : RouteAction :=
  if isPrefixL "/api".toList path.toList then RouteAction.proxyTo proxyTarget
  else RouteAction.nextHandler

/-- The mount implementation of `registerRoutes`
(`app.use("/api", proxy)` in `server/routes.ts`): an Express mount matches
its mount path case-insensitively by default, so a mount at `"/api"`
matches every path equal to `"/api"` up to letter case and every path that
continues past it with a `/` segment boundary, again up to case. -/
def registerRoutesMount (path : String) : RouteAction :=
  if lowerL path.toList = lowerL "/api".toList ∨
      isPrefixL (lowerL "/api/".toList) (lowerL path.toList) = true then
    RouteAction.proxyTo proxyTarget
  else RouteAction.nextHandler

/-! ## Helper lemmas: text utilities -/

lemma isPrefixL_refl : ∀ l : List Char, isPrefixL l l = true := by
  intro l
  induction l with
  | nil => rfl
  | cons c cs ih => simp [isPrefixL, ih]

lemma isPrefixL_of_append : ∀ (a b l : List Char),
    isPrefixL (a ++ b) l = true → isPrefixL a l = true := by
  intro a
  induction a with
  | nil => intro b l _; rfl
  | cons p ps ih =>
      intro b l h
      cases l with
      | nil => simp [isPrefixL] at h
      | cons c cs =>
          simp only [List.cons_append, isPrefixL, Bool.and_eq_true] at h ⊢
          exact ⟨h.1, ih b cs h.2⟩

lemma lowerL_isPrefixL : ∀ (a l : List Char),
    isPrefixL a l = true → isPrefixL (lowerL a) (lowerL l) = true := by
  intro a
  induction a with
  | nil => intro l _; rfl
  | cons p ps ih =>
      intro l h
      cases l with
      | nil => simp [isPrefixL] at h
      | cons c cs =>
          simp only [isPrefixL, Bool.and_eq_true, decide_eq_true_eq] at h
          simp only [lowerL, List.map_cons, isPrefixL, Bool.and_eq_true,
            decide_eq_true_eq]
          refine ⟨congrArg lowChar h.1, ?_⟩
          have := ih cs h.2
          simpa [lowerL] using this

/-! ## Helper lemmas: the first-match rule evaluation -/

lemma firstMatch_of_no_match (tl : List Char) :
    ∀ rules : List (List String × Intent),
      (∀ r ∈ rules, ruleMatches tl r.1 = false) →
      firstMatch tl rules = Intent.unknown := by
  intro rules
  induction rules with
  | nil => intro _; rfl
  | cons r rest ih =>
      intro h
      have hr := h r (List.mem_cons_self r rest)
      simp [firstMatch, hr]
      exact ih fun r' hr' => h r' (List.mem_cons_of_mem r hr')

lemma firstMatch_append (tl : List Char) (r : List String × Intent)
    (post : List (List String × Intent)) :
    ∀ pre : List (List String × Intent),
      (∀ r' ∈ pre, ruleMatches tl r'.1 = false) →
      ruleMatches tl r.1 = true →
      firstMatch tl (pre ++ r :: post) = r.2 := by
  intro pre
  induction pre with
  | nil => intro _ hr; simp [firstMatch, hr]
  | cons p ps ih =>
      intro h hr
      have hp := h p (List.mem_cons_self p ps)
      simp only [List.cons_append, firstMatch, hp, Bool.false_eq_true,
        if_false]
      exact ih (fun r' hr' => h r' (List.mem_cons_of_mem p hr')) hr

/-! ## Helper lemmas: the conversation store -/

lemma getConv_putConv_self : ∀ (s : Store) (cid : String) (c : Conversation),
    getConv (putConv s cid c) cid = some c := by
  intro s cid c
  induction s with
  | nil => simp [putConv, getConv]
  | cons kv rest ih =>
      obtain ⟨k, v⟩ := kv
      by_cases hk : k = cid
      · simp [putConv, hk, getConv]
      · simp [putConv, hk, getConv, ih]

lemma getConv_putConv_ne : ∀ (s : Store) (cid cid' : String) (c : Conversation),
    cid' ≠ cid → getConv (putConv s cid c) cid' = getConv s cid' := by
  intro s cid cid' c hne
  have hcc : ¬ cid = cid' := fun h => hne (Eq.symm h)
  induction s with
  | nil => simp [putConv, getConv, hcc]
  | cons kv rest ih =>
      obtain ⟨k, v⟩ := kv
      by_cases hk : k = cid
      · subst hk
        simp [putConv, getConv, hcc]
      · simp [putConv, hk, getConv, ih]

lemma putConv_of_getConv : ∀ (s : Store) (cid : String) (c : Conversation),
    getConv s cid = some c → putConv s cid c = s := by
  intro s cid c
  induction s with
  | nil => intro h; simp [getConv] at h
  | cons kv rest ih =>
      obtain ⟨k, v⟩ := kv
      intro h
      by_cases hk : k = cid
      · subst hk
        simp [getConv] at h
        simp [putConv, h]
      · simp [getConv, hk] at h
        simp [putConv, hk, ih h]

/-! ## Helper lemmas: record updates -/

lemma close_closed_eq (c : Conversation) (h : c.status = Status.closed) :
    { c with status := Status.closed } = c := by
  cases c
  simp_all

lemma nextTicket_isSome (c : Conversation) (ext : Option String) (now : Nat) :
    (nextTicket c ext now).isSome = true := by
  unfold nextTicket
  cases c.ticket_id <;> simp

lemma turnUpdate_messages (cfg : PolicyConfig) (c : Conversation)
    (text : String) (now : Nat) (ext : Option String) :
    (turnUpdate cfg c text now ext).messages =
      c.messages ++ [⟨Role.user, text, now⟩,
        ⟨Role.assistant, generate_response (classify_intent text), now⟩] := by
  simp only [turnUpdate]
  split <;> rfl

lemma turnUpdate_ticket_some (cfg : PolicyConfig) (c : Conversation)
    (text : String) (now : Nat) (ext : Option String) (t : String)
    (h : c.ticket_id = some t) :
    (turnUpdate cfg c text now ext).ticket_id = some t := by
  simp only [turnUpdate]
  split <;> simp [nextTicket, h]

/-- The escalation invariant on a conversation record: an escalated
conversation needs human follow-up and carries a ticket. -/
def EscInv (c : Conversation) : Prop :=
  c.escalated = true →
    c.resolution_status = ResolutionStatus.human_followup_required ∧
      c.ticket_id.isSome = true

/-- The escalation invariant over every conversation reachable in a store. -/
def StoreInv (s : Store) : Prop :=
  ∀ cid c, getConv s cid = some c → EscInv c

lemma escInv_turnUpdate (cfg : PolicyConfig) (c : Conversation) (text : String)
    (now : Nat) (ext : Option String) (hesc : c.escalated = false) :
    EscInv (turnUpdate cfg c text now ext) := by
  unfold EscInv
  simp only [turnUpdate]
  split
  · intro _
    exact ⟨rfl, nextTicket_isSome c ext now⟩
  · intro h
    simp [hesc] at h
  · intro h
    simp [hesc] at h

lemma escInv_close (c : Conversation) (h : EscInv c) :
    EscInv { c with status := Status.closed } := by
  unfold EscInv at h ⊢
  simpa using h

lemma escInv_fresh (cid : String) (now : Nat) : EscInv (freshConv cid now) := by
  intro h
  simp [freshConv] at h

/-! ## Helper lemmas: characterization of `handle_turn` and `close` -/

lemma handle_turn_not_found (cfg : PolicyConfig) (s : Store) (cid text : String)
    (now : Nat) (ext : Option String) (h : getConv s cid = none) :
    handle_turn cfg s cid text now ext =
      Except.error TurnError.NotFoundError := by
  simp [handle_turn, h]

lemma handle_turn_closed (cfg : PolicyConfig) (s : Store) (cid text : String)
    (now : Nat) (ext : Option String) (c : Conversation)
    (h : getConv s cid = some c) (hc : c.status = Status.closed) :
    handle_turn cfg s cid text now ext =
      Except.error TurnError.ClosedConversationError := by
  simp [handle_turn, h, hc]

lemma handle_turn_escalated_err (cfg : PolicyConfig) (s : Store)
    (cid text : String) (now : Nat) (ext : Option String) (c : Conversation)
    (h : getConv s cid = some c) (hnc : ¬ c.status = Status.closed)
    (he : c.escalated = true) :
    handle_turn cfg s cid text now ext =
      Except.error TurnError.EscalatedConversationError := by
  simp [handle_turn, h, hnc, he]

lemma handle_turn_ok (cfg : PolicyConfig) (s : Store) (cid text : String)
    (now : Nat) (ext : Option String) (c : Conversation)
    (h : getConv s cid = some c) (hnc : ¬ c.status = Status.closed)
    (he : c.escalated = false) :
    handle_turn cfg s cid text now ext =
      Except.ok (putConv s cid (turnUpdate cfg c text now ext),
        turnUpdate cfg c text now ext, analyze_text_sentiment text) := by
  simp [handle_turn, h, hnc, he]

lemma close_some (s : Store) (cid : String) (c : Conversation)
    (h : getConv s cid = some c) :
    close s cid =
      Except.ok (putConv s cid { c with status := Status.closed }) := by
  simp [close, h]

/-! ## Master step lemmas for `applyOp` -/

lemma getConv_applyOp_of_some (cfg : PolicyConfig) (s : Store) (op : Op)
    (cid : String) (c : Conversation) (h : getConv s cid = some c) :
    getConv (applyOp cfg s op) cid = some c ∨
    (∃ text now ext, op = Op.turn cid text now ext ∧
      ¬ c.status = Status.closed ∧ c.escalated = false ∧
      getConv (applyOp cfg s op) cid = some (turnUpdate cfg c text now ext)) ∨
    (op = Op.close cid ∧
      getConv (applyOp cfg s op) cid =
        some { c with status := Status.closed }) := by
  cases op with
  | start cid' now =>
      left
      cases hc : getConv s cid' with
      | some c0 => simpa [applyOp, hc] using h
      | none =>
          have hne : ¬ cid' = cid := fun he => by
            rw [he, h] at hc
            exact Option.noConfusion hc
          simp [applyOp, hc, getConv, hne, h]
  | turn cid' text now ext =>
      by_cases hcc : cid' = cid
      · subst hcc
        by_cases hcl : c.status = Status.closed
        · left
          simp [applyOp, handle_turn_closed cfg s cid' text now ext c h hcl, h]
        · by_cases hes : c.escalated = true
          · left
            simp [applyOp,
              handle_turn_escalated_err cfg s cid' text now ext c h hcl hes, h]
          · right; left
            refine ⟨text, now, ext, rfl, hcl, by simpa using hes, ?_⟩
            simp [applyOp,
              handle_turn_ok cfg s cid' text now ext c h hcl
                (by simpa using hes),
              getConv_putConv_self]
      · left
        have hne : ¬ cid = cid' := fun he => hcc (Eq.symm he)
        cases hc : getConv s cid' with
        | none =>
            simp [applyOp, handle_turn_not_found cfg s cid' text now ext hc, h]
        | some c0 =>
            by_cases hcl : c0.status = Status.closed
            · simp [applyOp,
                handle_turn_closed cfg s cid' text now ext c0 hc hcl, h]
            · by_cases hes : c0.escalated = true
              · simp [applyOp,
                  handle_turn_escalated_err cfg s cid' text now ext c0 hc hcl
                    hes, h]
              · rw [applyOp,
                  handle_turn_ok cfg s cid' text now ext c0 hc hcl
                    (by simpa using hes)]
                rw [getConv_putConv_ne s cid' cid _ hne]
                exact h
  | close cid' =>
      by_cases hcc : cid' = cid
      · subst hcc
        right; right
        refine ⟨rfl, ?_⟩
        simp [applyOp, close_some s cid' c h, getConv_putConv_self]
      · left
        have hne : ¬ cid = cid' := fun he => hcc (Eq.symm he)
        cases hc : getConv s cid' with
        | none => simp [applyOp, close, hc, h]
        | some c0 =>
            rw [applyOp, close_some s cid' c0 hc]
            rw [getConv_putConv_ne s cid' cid _ hne]
            exact h

lemma getConv_applyOp_of_none (cfg : PolicyConfig) (s : Store) (op : Op)
    (cid : String) (h : getConv s cid = none) :
    getConv (applyOp cfg s op) cid = none ∨
    (∃ now, op = Op.start cid now ∧
      getConv (applyOp cfg s op) cid = some (freshConv cid now)) := by
  cases op with
  | start cid' now =>
      cases hc : getConv s cid' with
      | some c0 =>
          left
          simpa [applyOp, hc] using h
      | none =>
          by_cases hcc : cid' = cid
          · subst hcc
            right
            exact ⟨now, rfl, by simp [applyOp, hc, getConv]⟩
          · left
            simp [applyOp, hc, getConv, hcc, h]
  | turn cid' text now ext =>
      left
      by_cases hcc : cid' = cid
      · subst hcc
        simp [applyOp, handle_turn_not_found cfg s cid' text now ext h, h]
      · have hne : ¬ cid = cid' := fun he => hcc (Eq.symm he)
        cases hc : getConv s cid' with
        | none =>
            simp [applyOp, handle_turn_not_found cfg s cid' text now ext hc, h]
        | some c0 =>
            by_cases hcl : c0.status = Status.closed
            · simp [applyOp,
                handle_turn_closed cfg s cid' text now ext c0 hc hcl, h]
            · by_cases hes : c0.escalated = true
              · simp [applyOp,
                  handle_turn_escalated_err cfg s cid' text now ext c0 hc hcl
                    hes, h]
              · rw [applyOp,
                  handle_turn_ok cfg s cid' text now ext c0 hc hcl
                    (by simpa using hes)]
                rw [getConv_putConv_ne s cid' cid _ hne]
                exact h
  | close cid' =>
      left
      by_cases hcc : cid' = cid
      · subst hcc
        simp [applyOp, close, h]
      · have hne : ¬ cid = cid' := fun he => hcc (Eq.symm he)
        cases hc : getConv s cid' with
        | none => simp [applyOp, close, hc, h]
        | some c0 =>
            rw [applyOp, close_some s cid' c0 hc]
            rw [getConv_putConv_ne s cid' cid _ hne]
            exact h

/-! ## Helper lemmas: preservation along operation sequences -/

lemma foldl_preserve (cfg : PolicyConfig) (P : Conversation → Prop)
    (hturn : ∀ c text now ext, ¬ c.status = Status.closed →
      c.escalated = false → P c → P (turnUpdate cfg c text now ext))
    (hclose : ∀ c : Conversation, P c → P { c with status := Status.closed }) :
    ∀ (ops : List Op) (s : Store) (cid : String) (c : Conversation),
      getConv s cid = some c → P c →
      ∃ c', getConv (List.foldl (applyOp cfg) s ops) cid = some c' ∧ P c' := by
  intro ops
  induction ops with
  | nil =>
      intro s cid c h hP
      exact ⟨c, h, hP⟩
  | cons op rest ih =>
      intro s cid c h hP
      rw [List.foldl_cons]
      rcases getConv_applyOp_of_some cfg s op cid c h with
        h1 | ⟨text, now, ext, _, hncl, hesc, h2⟩ | ⟨_, h3⟩
      · exact ih _ cid c h1 hP
      · exact ih _ cid _ h2 (hturn c text now ext hncl hesc hP)
      · exact ih _ cid _ h3 (hclose c hP)

lemma closed_frozen_foldl (cfg : PolicyConfig) :
    ∀ (ops : List Op) (s : Store) (cid : String) (c : Conversation),
      getConv s cid = some c → c.status = Status.closed →
      getConv (List.foldl (applyOp cfg) s ops) cid = some c := by
  intro ops
  induction ops with
  | nil =>
      intro s cid c h _
      exact h
  | cons op rest ih =>
      intro s cid c h hcl
      rw [List.foldl_cons]
      rcases getConv_applyOp_of_some cfg s op cid c h with
        h1 | ⟨text, now, ext, _, hncl, _, _⟩ | ⟨_, h3⟩
      · exact ih _ cid c h1 hcl
      · exact absurd hcl hncl
      · rw [close_closed_eq c hcl] at h3
        exact ih _ cid c h3 hcl

lemma storeInv_applyOp (cfg : PolicyConfig) (s : Store) (op : Op)
    (h : StoreInv s) : StoreInv (applyOp cfg s op) := by
  intro cid c' h'
  cases hc : getConv s cid with
  | some c =>
      rcases getConv_applyOp_of_some cfg s op cid c hc with
        h1 | ⟨text, now, ext, _, hncl, hesc, h2⟩ | ⟨_, h3⟩
      · rw [h'] at h1
        rw [Option.some.inj h1]
        exact h cid c hc
      · rw [h'] at h2
        rw [Option.some.inj h2]
        exact escInv_turnUpdate cfg c text now ext hesc
      · rw [h'] at h3
        rw [Option.some.inj h3]
        exact escInv_close c (h cid c hc)
  | none =>
      rcases getConv_applyOp_of_none cfg s op cid hc with h1 | ⟨now, _, h2⟩
      · rw [h1] at h'
        exact Option.noConfusion h'
      · rw [h'] at h2
        rw [Option.some.inj h2]
        exact escInv_fresh cid now

lemma storeInv_nil : StoreInv ([] : Store) := by
  intro cid c h
  simp [getConv] at h

lemma storeInv_foldl (cfg : PolicyConfig) :
    ∀ (ops : List Op) (s : Store), StoreInv s →
      StoreInv (List.foldl (applyOp cfg) s ops) := by
  intro ops
  induction ops with
  | nil =>
      intro s h
      exact h
  | cons op rest ih =>
      intro s h
      rw [List.foldl_cons]
      exact ih _ (storeInv_applyOp cfg s op h)

/-! ## Scenario fixtures -/

/-- The complaint text of the spec's escalation scenario. -/
def scenarioText : String :=
  "why is my bill so high and overcharging me, this is ridiculous"

/-- The default policy configuration: 2 consecutive negative/mixed readings,
maximum 10 turns. -/
def defaultConfig : PolicyConfig := {}

/-- A conversation started and then given the scenario complaint twice. -/
def twoTurnStore : Store :=
  List.foldl (applyOp defaultConfig) []
    [Op.start "c1" 0, Op.turn "c1" scenarioText 1 none,
     Op.turn "c1" scenarioText 2 none]

/-! ## Claim theorems -/

/-- C1: the escalation policy escalates after a turn exactly when the
consecutive negative/mixed count has reached the threshold, or the current
intent is an explicit complaint with negative sentiment, or the maximum turn
count is exceeded without `ai_resolved`; escalation takes precedence over
resolution; and two consecutive complaint/negative turns leave the
conversation escalated with `human_followup_required` and an issued
ticket. -/
theorem claim1_escalation_decision :
    (∀ (cfg : PolicyConfig) (hist : List SentimentReading) (intent : Intent)
        (cur : Sentiment) (turnCount : Nat) (res : ResolutionStatus),
      decide_policy cfg hist intent cur turnCount res = Decision.escalate ↔
        (cfg.threshold ≤ consecTrailing hist ∨
          (intent = Intent.complaint ∧ cur = Sentiment.negative) ∨
          (cfg.maxTurns < turnCount ∧ res ≠ ResolutionStatus.ai_resolved))) ∧
    (∀ (cfg : PolicyConfig) (hist : List SentimentReading) (intent : Intent)
        (cur : Sentiment) (turnCount : Nat) (res : ResolutionStatus),
      escalation_condition cfg hist intent cur turnCount res →
      resolve_condition intent cur →
      decide_policy cfg hist intent cur turnCount res = Decision.escalate) ∧
    classify_intent scenarioText = Intent.complaint ∧
    (analyze_text_sentiment scenarioText).label = Sentiment.negative ∧
    statusOf twoTurnStore "c1" = some Status.escalated ∧
    resolutionOf twoTurnStore "c1" =
      some ResolutionStatus.human_followup_required ∧
    ticketIssued twoTurnStore "c1" = true := by
  refine ⟨?_, ?_, by decide, by decide, by decide, by decide, by decide⟩
  · intro cfg hist intent cur tc res
    constructor
    · intro h
      unfold decide_policy at h
      by_cases hc : escalation_condition cfg hist intent cur tc res
      · unfold escalation_condition at hc
        exact hc
      · rw [if_neg hc] at h
        by_cases hr : resolve_condition intent cur
        · rw [if_pos hr] at h
          exact Decision.noConfusion h
        · rw [if_neg hr] at h
          exact Decision.noConfusion h
    · intro h
      have hc : escalation_condition cfg hist intent cur tc res := by
        unfold escalation_condition
        exact h
      unfold decide_policy
      rw [if_pos hc]
  · intro cfg hist intent cur tc res hesc _
    unfold decide_policy
    rw [if_pos hesc]

/-- C1 witness: with two trailing negative readings and a direct-answer
intent, both the escalation and the resolution condition hold, and the
policy escalates. -/
theorem claim1_escalation_decision_witness :
    decide_policy ⟨2, 10⟩
      [⟨Sentiment.negative, 1⟩, ⟨Sentiment.negative, 1⟩]
      Intent.due_date_inquiry Sentiment.neutral 2
      ResolutionStatus.in_progress = Decision.escalate :=
  claim1_escalation_decision.2.1 ⟨2, 10⟩
    [⟨Sentiment.negative, 1⟩, ⟨Sentiment.negative, 1⟩]
    Intent.due_date_inquiry Sentiment.neutral 2 ResolutionStatus.in_progress
    (by decide) (by decide)

/-- C2: a closed conversation is terminal — no sequence of operations
changes its record (messages, escalated flag, status included), and closing
an already-closed conversation leaves the store unchanged. -/
theorem claim2_closed_terminal :
    (∀ (cfg : PolicyConfig) (s : Store) (ops : List Op) (cid : String)
        (c : Conversation),
      getConv s cid = some c → c.status = Status.closed →
      getConv (List.foldl (applyOp cfg) s ops) cid = some c) ∧
    (∀ (cfg : PolicyConfig) (s : Store) (cid : String) (c : Conversation),
      getConv s cid = some c → c.status = Status.closed →
      applyOp cfg s (Op.close cid) = s) := by
  constructor
  · intro cfg s ops cid c h hcl
    exact closed_frozen_foldl cfg ops s cid c h hcl
  · intro cfg s cid c h hcl
    simp [applyOp, close_some s cid c h, close_closed_eq c hcl,
      putConv_of_getConv s cid c h]

/-- C2 witness: a closed conversation survives a turn, a close and a
restart attempt untouched, and a second close is a no-op. -/
theorem claim2_closed_terminal_witness :
    getConv (List.foldl (applyOp ⟨2, 10⟩)
        [("x", { freshConv "x" 0 with status := Status.closed })]
        [Op.turn "x" "hello" 1 none, Op.close "x", Op.start "x" 2]) "x" =
      some { freshConv "x" 0 with status := Status.closed } ∧
    applyOp ⟨2, 10⟩ [("x", { freshConv "x" 0 with status := Status.closed })]
        (Op.close "x") =
      [("x", { freshConv "x" 0 with status := Status.closed })] :=
  ⟨claim2_closed_terminal.1 ⟨2, 10⟩
      [("x", { freshConv "x" 0 with status := Status.closed })]
      [Op.turn "x" "hello" 1 none, Op.close "x", Op.start "x" 2] "x"
      { freshConv "x" 0 with status := Status.closed } (by decide) (by decide),
    claim2_closed_terminal.2 ⟨2, 10⟩
      [("x", { freshConv "x" 0 with status := Status.closed })] "x"
      { freshConv "x" 0 with status := Status.closed } (by decide) (by decide)⟩

/-- C3: `handle_turn` on an escalated conversation fails with
`EscalatedConversationError` and on a closed conversation fails with
`ClosedConversationError`, leaving the store unchanged in both cases; the
frontend accordingly disables the input area for closed or escalated
conversations. -/
theorem claim3_terminal_turn_errors :
    (∀ (cfg : PolicyConfig) (s : Store) (cid text : String) (now : Nat)
        (ext : Option String) (c : Conversation),
      getConv s cid = some c →
      (c.status = Status.escalated → c.escalated = true →
        handle_turn cfg s cid text now ext =
          Except.error TurnError.EscalatedConversationError ∧
        applyOp cfg s (Op.turn cid text now ext) = s) ∧
      (c.status = Status.closed →
        handle_turn cfg s cid text now ext =
          Except.error TurnError.ClosedConversationError ∧
        applyOp cfg s (Op.turn cid text now ext) = s)) ∧
    (∀ (st : String) (b : Bool),
      (st = "closed" ∨ b = true) → isInputDisabled st b = true) := by
  constructor
  · intro cfg s cid text now ext c h
    constructor
    · intro hst hesc
      have hncl : ¬ c.status = Status.closed := by
        rw [hst]
        exact fun hh => Status.noConfusion hh
      have herr := handle_turn_escalated_err cfg s cid text now ext c h hncl
        hesc
      exact ⟨herr, by simp [applyOp, herr]⟩
    · intro hcl
      have herr := handle_turn_closed cfg s cid text now ext c h hcl
      exact ⟨herr, by simp [applyOp, herr]⟩
  · intro st b hb
    rcases hb with hb | hb
    · simp [isInputDisabled, hb]
    · simp [isInputDisabled, hb]

/-- C3 witness: a turn on a concrete escalated conversation signals
`EscalatedConversationError`, and one on a closed conversation signals
`ClosedConversationError`. -/
theorem claim3_terminal_turn_errors_witness :
    (handle_turn ⟨2, 10⟩
        [("x", { freshConv "x" 0 with
          status := Status.escalated, escalated := true })] "x" "hi" 1 none =
      Except.error TurnError.EscalatedConversationError ∧
      applyOp ⟨2, 10⟩ [("x", { freshConv "x" 0 with
          status := Status.escalated, escalated := true })]
        (Op.turn "x" "hi" 1 none) =
        [("x", { freshConv "x" 0 with
          status := Status.escalated, escalated := true })]) ∧
    (handle_turn ⟨2, 10⟩
        [("x", { freshConv "x" 0 with status := Status.closed })] "x" "hi" 1
        none = Except.error TurnError.ClosedConversationError ∧
      applyOp ⟨2, 10⟩
        [("x", { freshConv "x" 0 with status := Status.closed })]
        (Op.turn "x" "hi" 1 none) =
        [("x", { freshConv "x" 0 with status := Status.closed })]) :=
  ⟨(claim3_terminal_turn_errors.1 ⟨2, 10⟩
      [("x", { freshConv "x" 0 with
        status := Status.escalated, escalated := true })] "x" "hi" 1 none
      { freshConv "x" 0 with status := Status.escalated, escalated := true }
      (by decide)).1 (by decide) (by decide),
    (claim3_terminal_turn_errors.1 ⟨2, 10⟩
      [("x", { freshConv "x" 0 with status := Status.closed })] "x" "hi" 1
      none { freshConv "x" 0 with status := Status.closed }
      (by decide)).2 (by decide)⟩

/-- C4: the escalated flag is monotonic under every operation sequence, and
in every store reachable from the empty store an escalated conversation has
`resolution_status = human_followup_required` and carries a ticket. -/
theorem claim4_escalation_monotonic_invariant :
    (∀ (cfg : PolicyConfig) (s : Store) (ops : List Op) (cid : String)
        (c : Conversation),
      getConv s cid = some c → c.escalated = true →
      ∃ c', getConv (List.foldl (applyOp cfg) s ops) cid = some c' ∧
        c'.escalated = true) ∧
    (∀ (cfg : PolicyConfig) (ops : List Op) (cid : String) (c : Conversation),
      getConv (List.foldl (applyOp cfg) [] ops) cid = some c →
      c.escalated = true →
      c.resolution_status = ResolutionStatus.human_followup_required ∧
        c.ticket_id.isSome = true) := by
  constructor
  · intro cfg s ops cid c h hesc
    refine foldl_preserve cfg (fun c => c.escalated = true) ?_ ?_ ops s cid c
      h hesc
    · intro c text now ext _ hesc0 hP
      rw [hesc0] at hP
      exact Bool.noConfusion hP
    · intro c hP
      simpa using hP
  · intro cfg ops cid c h hesc
    exact storeInv_foldl cfg ops [] storeInv_nil cid c h hesc

/-- C4 witness: in the concrete two-complaint scenario run the conversation
stays escalated under a further close, and the reachable-store invariant
holds for it. -/
theorem claim4_escalation_monotonic_invariant_witness :
    (∃ c', getConv (List.foldl (applyOp defaultConfig) twoTurnStore
        [Op.close "c1"]) "c1" = some c' ∧ c'.escalated = true) ∧
    (((getConv (List.foldl (applyOp defaultConfig) []
        [Op.start "c1" 0, Op.turn "c1" scenarioText 1 none]) "c1").getD
          (freshConv "c1" 0)).resolution_status =
        ResolutionStatus.human_followup_required ∧
      ((getConv (List.foldl (applyOp defaultConfig) []
        [Op.start "c1" 0, Op.turn "c1" scenarioText 1 none]) "c1").getD
          (freshConv "c1" 0)).ticket_id.isSome = true) :=
  ⟨claim4_escalation_monotonic_invariant.1 defaultConfig twoTurnStore
      [Op.close "c1"] "c1"
      ((getConv twoTurnStore "c1").getD (freshConv "c1" 0)) rfl
      (by decide),
    claim4_escalation_monotonic_invariant.2 defaultConfig
      [Op.start "c1" 0, Op.turn "c1" scenarioText 1 none] "c1"
      ((getConv (List.foldl (applyOp defaultConfig) []
        [Op.start "c1" 0, Op.turn "c1" scenarioText 1 none]) "c1").getD
          (freshConv "c1" 0))
      rfl (by decide)⟩

/-- C5: ticket issuance never propagates a failure — on any failure the
adapter returns a locally issued ticket `LOCAL-{timestamp}`, on success the
external ID; an issued ticket is never changed or unset by any later
operation, and every escalated conversation reachable from the empty store
carries a ticket. -/
theorem claim5_ticket_fallback :
    (∀ now : Nat,
      issue none now = ⟨"LOCAL-" ++ toString now, true⟩) ∧
    (∀ (eid : String) (now : Nat), issue (some eid) now = ⟨eid, false⟩) ∧
    (∀ (cfg : PolicyConfig) (s : Store) (ops : List Op) (cid : String)
        (c : Conversation) (t : String),
      getConv s cid = some c → c.ticket_id = some t →
      ∃ c', getConv (List.foldl (applyOp cfg) s ops) cid = some c' ∧
        c'.ticket_id = some t) ∧
    (∀ (cfg : PolicyConfig) (ops : List Op) (cid : String) (c : Conversation),
      getConv (List.foldl (applyOp cfg) [] ops) cid = some c →
      c.escalated = true → c.ticket_id.isSome = true) := by
  refine ⟨fun _ => rfl, fun _ _ => rfl, ?_, ?_⟩
  · intro cfg s ops cid c t h ht
    refine foldl_preserve cfg (fun c => c.ticket_id = some t) ?_ ?_ ops s cid
      c h ht
    · intro c text now ext _ _ hP
      exact turnUpdate_ticket_some cfg c text now ext t hP
    · intro c hP
      simpa using hP
  · intro cfg ops cid c h hesc
    exact (storeInv_foldl cfg ops [] storeInv_nil cid c h hesc).2

/-- C5 witness: the locally issued fallback ticket of the scenario run
(`LOCAL-1`) survives further operations unchanged. -/
theorem claim5_ticket_fallback_witness :
    ∃ c', getConv (List.foldl (applyOp defaultConfig) twoTurnStore
        [Op.close "c1", Op.turn "c1" "hello" 3 none]) "c1" = some c' ∧
      c'.ticket_id = some "LOCAL-1" :=
  claim5_ticket_fallback.2.2.1 defaultConfig twoTurnStore
    [Op.close "c1", Op.turn "c1" "hello" 3 none] "c1"
    ((getConv twoTurnStore "c1").getD (freshConv "c1" 0)) "LOCAL-1"
    rfl (by decide)

/-- C6: the intent classifier is a total deterministic function — every
input text maps to exactly one intent, inputs agreeing up to case agree on
their intent, the fallback intent is returned when no rule matches, and
evaluation is first-match-wins over the fixed ordered rule list. -/
theorem claim6_intent_classifier :
    (∀ t : String, ∃! i : Intent, classify_intent t = i) ∧
    (∀ s t : String, lowerL s.toList = lowerL t.toList →
      classify_intent s = classify_intent t) ∧
    (∀ t : String,
      (∀ r ∈ intentRules, ruleMatches (lowerL t.toList) r.1 = false) →
      classify_intent t = Intent.unknown) ∧
    (∀ (t : String) (pre post : List (List String × Intent))
        (r : List String × Intent),
      intentRules = pre ++ r :: post →
      (∀ r' ∈ pre, ruleMatches (lowerL t.toList) r'.1 = false) →
      ruleMatches (lowerL t.toList) r.1 = true →
      classify_intent t = r.2) := by
  refine ⟨?_, ?_, ?_, ?_⟩
  · intro t
    exact ⟨classify_intent t, rfl, fun y hy => hy.symm⟩
  · intro s t h
    unfold classify_intent
    rw [h]
  · intro t h
    unfold classify_intent
    exact firstMatch_of_no_match _ intentRules h
  · intro t pre post r hrules hpre hr
    unfold classify_intent
    rw [hrules]
    exact firstMatch_append _ r post pre hpre hr

/-- C6 witness: a complaint text classifies the same regardless of case,
"what is my due date" hits the due-date rule first-match-wins, and gibberish
falls back to the unknown intent. -/
theorem claim6_intent_classifier_witness :
    classify_intent "THIS IS RIDICULOUS" = classify_intent "this is ridiculous" ∧
    classify_intent "what is my due date" =
      (["due date", "due"], Intent.due_date_inquiry).2 ∧
    classify_intent "zzz qqq" = Intent.unknown :=
  ⟨claim6_intent_classifier.2.1 "THIS IS RIDICULOUS" "this is ridiculous"
      (by decide),
    claim6_intent_classifier.2.2.2 "what is my due date"
      [(["ridiculous", "overcharg", "complaint", "terrible", "frustrat",
          "unacceptable"], Intent.complaint),
        (["bill"], Intent.bill_generation),
        (["payment", "deduct"], Intent.payment_deduction),
        (["balance"], Intent.balance_inquiry)] []
      (["due date", "due"], Intent.due_date_inquiry) (by decide) (by decide)
      (by decide),
    claim6_intent_classifier.2.2.1 "zzz qqq" (by decide)⟩

/-- C7: the text-path sentiment classifier is total — every input yields a
label among positive, neutral, negative and mixed with a confidence in
[0, 1]; empty input yields neutral with low confidence, and so does any
input matching no sentiment keyword. -/
theorem claim7_sentiment_total :
    ∀ t : String,
      (0 ≤ (analyze_text_sentiment t).confidence ∧
        (analyze_text_sentiment t).confidence ≤ 1) ∧
      ((analyze_text_sentiment t).label = Sentiment.positive ∨
        (analyze_text_sentiment t).label = Sentiment.neutral ∨
        (analyze_text_sentiment t).label = Sentiment.negative ∨
        (analyze_text_sentiment t).label = Sentiment.mixed) ∧
      (t = "" →
        analyze_text_sentiment t = ⟨Sentiment.neutral, 3/10⟩ ∧
          (3/10 : ℚ) ≤ 1/2) ∧
      ((∀ k ∈ negativeKeywords,
          containsSub (lowerL t.toList) (lowerL k.toList) = false) →
        (∀ k ∈ positiveKeywords,
          containsSub (lowerL t.toList) (lowerL k.toList) = false) →
        (analyze_text_sentiment t).label = Sentiment.neutral ∧
          (analyze_text_sentiment t).confidence ≤ 1/2) := by
  intro t
  refine ⟨?_, ?_, ?_, ?_⟩
  · simp only [analyze_text_sentiment]
    split_ifs <;> constructor <;> norm_num
  · cases h : (analyze_text_sentiment t).label
    · left; rfl
    · right; left; rfl
    · right; right; left; rfl
    · right; right; right; rfl
  · intro h
    subst h
    constructor
    · rfl
    · norm_num
  · intro hneg hpos
    have hn : (negativeKeywords.any fun k =>
        containsSub (lowerL t.toList) (lowerL k.toList)) = false := by
      rw [List.any_eq_false]
      intro k hk
      rw [hneg k hk]
      exact Bool.noConfusion
    have hp : (positiveKeywords.any fun k =>
        containsSub (lowerL t.toList) (lowerL k.toList)) = false := by
      rw [List.any_eq_false]
      intro k hk
      rw [hpos k hk]
      exact Bool.noConfusion
    constructor
    · simp only [analyze_text_sentiment]
      rw [hn, hp]
      rfl
    · simp only [analyze_text_sentiment]
      rw [hn, hp]
      norm_num

/-- C7 witness: the empty input and an input with no sentiment keywords both
come out neutral with low confidence, and the bounds hold concretely. -/
theorem claim7_sentiment_total_witness :
    (0 ≤ (analyze_text_sentiment "what is my due date").confidence ∧
      (analyze_text_sentiment "what is my due date").confidence ≤ 1) ∧
    analyze_text_sentiment "" = ⟨Sentiment.neutral, 3/10⟩ ∧
    (analyze_text_sentiment "what is my due date").label =
      Sentiment.neutral :=
  ⟨(claim7_sentiment_total "what is my due date").1,
    ((claim7_sentiment_total "").2.2.1 rfl).1,
    ((claim7_sentiment_total "what is my due date").2.2.2 (by decide)
      (by decide)).1⟩

/-- C8: a successful turn on an active conversation appends exactly the user
message followed by the assistant message (history grows by 2), while a turn
rejected on a terminal (closed or escalated) conversation changes nothing
(history grows by 0). -/
theorem claim8_message_growth :
    ∀ (cfg : PolicyConfig) (s : Store) (cid text : String) (now : Nat)
        (ext : Option String) (c : Conversation),
      getConv s cid = some c →
      (c.status = Status.active → c.escalated = false →
        ∃ s' c' r, handle_turn cfg s cid text now ext =
            Except.ok (s', c', r) ∧
          c'.messages = c.messages ++ [⟨Role.user, text, now⟩,
            ⟨Role.assistant, generate_response (classify_intent text), now⟩] ∧
          c'.messages.length = c.messages.length + 2 ∧
          getConv s' cid = some c') ∧
      ((c.status = Status.closed ∨ c.escalated = true) →
        ∃ e, handle_turn cfg s cid text now ext = Except.error e ∧
          applyOp cfg s (Op.turn cid text now ext) = s) := by
  intro cfg s cid text now ext c h
  constructor
  · intro hst hesc
    have hncl : ¬ c.status = Status.closed := by
      rw [hst]
      exact fun hh => Status.noConfusion hh
    refine ⟨putConv s cid (turnUpdate cfg c text now ext),
      turnUpdate cfg c text now ext, analyze_text_sentiment text,
      handle_turn_ok cfg s cid text now ext c h hncl hesc,
      turnUpdate_messages cfg c text now ext, ?_,
      getConv_putConv_self s cid _⟩
    rw [turnUpdate_messages cfg c text now ext]
    simp
  · intro hterm
    by_cases hcl : c.status = Status.closed
    · have herr := handle_turn_closed cfg s cid text now ext c h hcl
      exact ⟨_, herr, by simp [applyOp, herr]⟩
    · have hesc : c.escalated = true := by
        rcases hterm with hterm | hterm
        · exact absurd hterm hcl
        · exact hterm
      have herr := handle_turn_escalated_err cfg s cid text now ext c h hcl
        hesc
      exact ⟨_, herr, by simp [applyOp, herr]⟩

/-- C8 witness: the first scenario turn on a fresh conversation appends
exactly two messages, and a turn on the escalated result is rejected with
the store unchanged. -/
theorem claim8_message_growth_witness :
    (∃ s' c' r, handle_turn defaultConfig [("c1", freshConv "c1" 0)] "c1"
        scenarioText 1 none = Except.ok (s', c', r) ∧
      c'.messages = (freshConv "c1" 0).messages ++
        [⟨Role.user, scenarioText, 1⟩,
          ⟨Role.assistant, generate_response (classify_intent scenarioText),
            1⟩] ∧
      c'.messages.length = (freshConv "c1" 0).messages.length + 2 ∧
      getConv s' "c1" = some c') ∧
    (∃ e, handle_turn defaultConfig twoTurnStore "c1" "hello" 3 none =
        Except.error e ∧
      applyOp defaultConfig twoTurnStore (Op.turn "c1" "hello" 3 none) =
        twoTurnStore) :=
  ⟨(claim8_message_growth defaultConfig [("c1", freshConv "c1" 0)] "c1"
      scenarioText 1 none (freshConv "c1" 0) (by decide)).1 (by decide)
      (by decide),
    (claim8_message_growth defaultConfig twoTurnStore "c1" "hello" 3 none
      ((getConv twoTurnStore "c1").getD (freshConv "c1" 0)) rfl).2
      (Or.inr (by decide))⟩

/-- C9 (amended): both implementations of `registerRoutes` proxy every
request whose path begins with "/api/" to the FastAPI backend at
127.0.0.1:8001; every request whose path does not begin with "/api" even
case-insensitively is passed to the next handler by both; the two
implementations agree on all those paths — but on a path that begins with
"/api" only up to letter case and continues with a `/` segment boundary,
the case-insensitive Express mount proxies while the case-sensitive
`startsWith("/api")` middleware passes it on, so they disagree there. -/
theorem claim9_proxy_routing :
    ∀ p : String,
      (isPrefixL "/api/".toList p.toList = true →
        registerRoutesMiddleware p = RouteAction.proxyTo proxyTarget ∧
        registerRoutesMount p = RouteAction.proxyTo proxyTarget) ∧
      (isPrefixL "/api".toList (lowerL p.toList) = false →
        registerRoutesMiddleware p = RouteAction.nextHandler ∧
        registerRoutesMount p = RouteAction.nextHandler) ∧
      ((isPrefixL "/api/".toList p.toList = true ∨
          isPrefixL "/api".toList (lowerL p.toList) = false) →
        registerRoutesMiddleware p = registerRoutesMount p) ∧
      (isPrefixL "/api".toList p.toList = false →
        isPrefixL "/api/".toList (lowerL p.toList) = true →
        registerRoutesMiddleware p = RouteAction.nextHandler ∧
        registerRoutesMount p = RouteAction.proxyTo proxyTarget ∧
        ¬ registerRoutesMiddleware p = registerRoutesMount p) := by
  intro p
  have hlow4 : lowerL "/api".toList = "/api".toList := by decide
  have hlow5 : lowerL "/api/".toList = "/api/".toList := by decide
  have hsub : isPrefixL "/api/".toList p.toList = true →
      isPrefixL "/api".toList p.toList = true := by
    intro h5
    exact isPrefixL_of_append "/api".toList "/".toList p.toList h5
  have hProxy : isPrefixL "/api/".toList p.toList = true →
      registerRoutesMiddleware p = RouteAction.proxyTo proxyTarget ∧
      registerRoutesMount p = RouteAction.proxyTo proxyTarget := by
    intro h5
    constructor
    · unfold registerRoutesMiddleware
      rw [hsub h5]
      simp
    · unfold registerRoutesMount
      rw [if_pos (Or.inr (lowerL_isPrefixL "/api/".toList p.toList h5))]
  have hNext : isPrefixL "/api".toList (lowerL p.toList) = false →
      registerRoutesMiddleware p = RouteAction.nextHandler ∧
      registerRoutesMount p = RouteAction.nextHandler := by
    intro h4
    have hcs : isPrefixL "/api".toList p.toList = false := by
      cases hx : isPrefixL "/api".toList p.toList
      · rfl
      · have hl := lowerL_isPrefixL "/api".toList p.toList hx
        rw [hlow4] at hl
        rw [hl] at h4
        exact Bool.noConfusion h4
    have hcond : ¬ (lowerL p.toList = lowerL "/api".toList ∨
        isPrefixL (lowerL "/api/".toList) (lowerL p.toList) = true) := by
      intro hc
      rcases hc with heq | hx
      · rw [hlow4] at heq
        rw [heq, isPrefixL_refl] at h4
        exact Bool.noConfusion h4
      · rw [hlow5] at hx
        rw [isPrefixL_of_append "/api".toList "/".toList (lowerL p.toList)
          hx] at h4
        exact Bool.noConfusion h4
    constructor
    · unfold registerRoutesMiddleware
      rw [hcs]
      simp
    · unfold registerRoutesMount
      rw [if_neg hcond]
  refine ⟨hProxy, hNext, ?_, ?_⟩
  · intro hd
    rcases hd with h5 | h4
    · rw [(hProxy h5).1, (hProxy h5).2]
    · rw [(hNext h4).1, (hNext h4).2]
  · intro hmid4 hlowp
    have hmid : registerRoutesMiddleware p = RouteAction.nextHandler := by
      unfold registerRoutesMiddleware
      rw [hmid4]
      simp
    have hmnt : registerRoutesMount p = RouteAction.proxyTo proxyTarget := by
      unfold registerRoutesMount
      have hm : isPrefixL (lowerL "/api/".toList) (lowerL p.toList) = true := by
        rw [hlow5]
        exact hlowp
      rw [if_pos (Or.inr hm)]
    refine ⟨hmid, hmnt, ?_⟩
    rw [hmid, hmnt]
    exact fun hc => RouteAction.noConfusion hc

/-- C9 counterexample: the path "/API/health" does not begin with "/api",
yet the `app.use("/api", ...)` mount — case-insensitive by default —
proxies it while the `startsWith("/api")` middleware passes it to the next
handler: the original claim's "passed unproxied by both, with identical
behaviour" fails there. -/
theorem claim9_proxy_routing_counterexample :
    isPrefixL "/api".toList "/API/health".toList = false ∧
    registerRoutesMount "/API/health" = RouteAction.proxyTo proxyTarget ∧
    ¬ registerRoutesMount "/API/health" = RouteAction.nextHandler ∧
    registerRoutesMiddleware "/API/health" = RouteAction.nextHandler ∧
    ¬ registerRoutesMiddleware "/API/health" =
      registerRoutesMount "/API/health" := by
  refine ⟨by decide, by decide, by decide, by decide, by decide⟩

/-- C9 witness: "/api/conversations" is proxied by both implementations,
"/assets/logo.png" is passed on by both, the two agree on both of those
paths, and "/API/health" exhibits the divergence — the middleware passes it
on while the case-insensitive mount proxies it. -/
theorem claim9_proxy_routing_witness :
    (registerRoutesMiddleware "/api/conversations" =
        RouteAction.proxyTo proxyTarget ∧
      registerRoutesMount "/api/conversations" =
        RouteAction.proxyTo proxyTarget) ∧
    (registerRoutesMiddleware "/assets/logo.png" = RouteAction.nextHandler ∧
      registerRoutesMount "/assets/logo.png" = RouteAction.nextHandler) ∧
    registerRoutesMiddleware "/api/conversations" =
      registerRoutesMount "/api/conversations" ∧
    (registerRoutesMiddleware "/API/health" = RouteAction.nextHandler ∧
      registerRoutesMount "/API/health" = RouteAction.proxyTo proxyTarget ∧
      ¬ registerRoutesMiddleware "/API/health" =
        registerRoutesMount "/API/health") :=
  ⟨(claim9_proxy_routing "/api/conversations").1 (by decide),
    (claim9_proxy_routing "/assets/logo.png").2.1 (by decide),
    (claim9_proxy_routing "/api/conversations").2.2.1 (Or.inl (by decide)),
    (claim9_proxy_routing "/API/health").2.2.2 (by decide) (by decide)⟩

/-- C10: the home-screen conversation card colours the sentiment dot by a
two-way test only — any label other than "negative" and "mixed", including
"neutral", gets the positive colour — while the conversation screen's
sentiment indicator maps "neutral" to the distinct neutral colour, so the
two screens disagree on a neutral conversation, in both themes. -/
theorem claim10_sentiment_color_mismatch :
    (∀ (theme : ThemeColors) (s : String), ¬ s = "negative" → ¬ s = "mixed" →
      conversationCardSentimentColor theme s = theme.sentimentPositive) ∧
    conversationCardSentimentColor lightColors "neutral" =
      lightColors.sentimentPositive ∧
    sentimentIndicatorColor lightColors "neutral" =
      lightColors.sentimentNeutral ∧
    conversationCardSentimentColor darkColors "neutral" =
      darkColors.sentimentPositive ∧
    sentimentIndicatorColor darkColors "neutral" =
      darkColors.sentimentNeutral ∧
    ¬ conversationCardSentimentColor lightColors "neutral" =
      sentimentIndicatorColor lightColors "neutral" ∧
    ¬ conversationCardSentimentColor darkColors "neutral" =
      sentimentIndicatorColor darkColors "neutral" := by
  refine ⟨?_, by decide, by decide, by decide, by decide, by decide,
    by decide⟩
  intro theme s h1 h2
  simp [conversationCardSentimentColor, h1, h2]

/-- C10 witness: the home card renders a "positive" conversation with the
positive colour via the fall-through branch. -/
theorem claim10_sentiment_color_mismatch_witness :
    conversationCardSentimentColor lightColors "positive" =
      lightColors.sentimentPositive :=
  claim10_sentiment_color_mismatch.1 lightColors "positive" (by decide)
    (by decide)

end Assist
